import Mathlib

/-!
Verification development for the ttslide repository: a shallow embedding of
the ordering / captioning / batch-SSE pipeline (src/lib/google.ts,
src/lib/anthropic.ts, src/lib/db.ts, src/app/api/order/route.ts,
src/app/api/migrate/route.ts batch handler, and the caption handler), with
theorems settling the spec's testable properties against the embedded code.
-/

namespace TTSlide

/-- An uploaded file record (src/lib/types.ts, interface UploadedFile).
Only the fields the ordering pipeline reads are embedded. -/
structure UploadedFile where
  kind : String
  localUrl : String
  geminiFileIdentifier : String
  geminiFileUri : String
  mime : String
  deriving DecidableEq, Repr

/-- An ordered slideshow as produced by the ordering stage
(src/lib/types.ts, interface OrderedSlideshow): a theme plus image IDs. -/
structure OrderedSlideshow where
  theme : String
  images : List String
  deriving DecidableEq, Repr

/-- A complete slideshow with captions (src/lib/types.ts, interface Slideshow). -/
structure Slideshow where
  theme : String
  images : List String
  captions : List String
  deriving DecidableEq, Repr

/-! ### google.ts: mock slideshow plan and Gemini invocation fallback -/

/-- The fixed theme list of the mock plan (google.ts line 361). -/
def mockThemes : List String := ["PMS", "Insomnia", "Anxiety"]

/-- One mock slideshow (google.ts lines 365-377).  The JS code interpolates
the current timestamp `Date.now()` into every image ID; the timestamp is the
explicit parameter `now` here. -/
def mockSlideshow (now i : Nat) : OrderedSlideshow :=
  { theme := mockThemes.getD (i % mockThemes.length) ""
  , images :=
      [ "face_mock_" ++ toString now ++ "_" ++ toString i ++ "_1"
      , "faceless_mock_" ++ toString now ++ "_" ++ toString i ++ "_2"
      , "faceless_mock_" ++ toString now ++ "_" ++ toString i ++ "_3"
      , "product_mock_" ++ toString now ++ "_" ++ toString i ++ "_4" ] }

/-- generateMockSlideShowResponse (google.ts lines 360-381): three mock
slideshows, one per theme, with timestamped placeholder image IDs. -/
def generateMockSlideShowResponse (now : Nat) : List OrderedSlideshow :=
  (List.range 3).map (mockSlideshow now)

/-- Outcome of one Gemini generateContent call, as far as
invokeGeminiWithTool (google.ts lines 210-357) distinguishes cases:
a function call with arguments, a parsable text response, an unparsable
text response, or a thrown API / response-shape error. -/
inductive GeminiOutcome where
  | functionCall (slideshows : List OrderedSlideshow)
  | textJson (slideshows : List OrderedSlideshow)
  | textUnparsable
  | apiError
  deriving DecidableEq, Repr

/-- invokeGeminiWithTool specialised to the create_slideshow_plan tool
(google.ts lines 306-356): function-call args or parsed text are returned
as-is; an unparsable text response or a thrown error falls back to
generateMockSlideShowResponse instead of propagating. -/
def invokeGeminiCreatePlan (now : Nat) : GeminiOutcome → List OrderedSlideshow
  | .functionCall s => s
  | .textJson s => s
  | .textUnparsable => generateMockSlideShowResponse now
  | .apiError => generateMockSlideShowResponse now

/-! ### Module-load environment checks (google.ts, anthropic.ts, db.ts) -/

/-- JS truthiness of an environment variable: `!process.env.X` is true when
the variable is unset or the empty string. -/
def envFalsy : Option String → Bool
  | none => true
  | some s => s == ""

/-- Process environment slice read at module load. -/
structure ProcessEnv where
  geminiKey : Option String
  anthropicKey : Option String
  databaseUrl : Option String
  deriving DecidableEq, Repr

/-- google.ts module initialization (lines 9-11): throws when
GEMINI_API_KEY is falsy. -/
def googleModuleInit (env : ProcessEnv) : Except String Unit :=
  if envFalsy env.geminiKey then
    .error "Missing GEMINI_API_KEY environment variable"
  else .ok ()

/-- anthropic.ts module initialization (lines 4-6): throws when
ANTHROPIC_API_KEY is falsy. -/
def anthropicModuleInit (env : ProcessEnv) : Except String Unit :=
  if envFalsy env.anthropicKey then
    .error "Missing ANTHROPIC_API_KEY environment variable"
  else .ok ()

/-- db.ts module initialization (lines 4-13): when DATABASE_URL is falsy it
only logs a FATAL ERROR message (the `throw new Error` on line 8 is
commented out) and continues; the returned flag records whether the fatal
message was logged. -/
def dbModuleInit (env : ProcessEnv) : Except String Bool :=
  .ok (envFalsy env.databaseUrl)

/-- Combined process start: the three modules load; any thrown error aborts
startup.  Returns db.ts's logged-fatal flag. -/
def processStartInit (env : ProcessEnv) : Except String Bool := do
  _ ← googleModuleInit env
  _ ← anthropicModuleInit env
  dbModuleInit env

/-! ### /api/order handler (src/app/api/order/route.ts) -/

/-- Order request body (src/lib/types.ts, interface OrderRequest), after
the handler's defaulting of themes / slideshowsPerTheme / framesPerSlideshow
(route.ts lines 20-26). -/
structure OrderRequest where
  files : List UploadedFile
  themes : List String
  slideshowsPerTheme : Nat
  framesPerSlideshow : Nat
  deriving DecidableEq, Repr

/-- hasAllTypes check (order/route.ts lines 37-40). -/
def hasAllTypes (files : List UploadedFile) : Bool :=
  files.any (fun f => f.kind == "face") &&
  files.any (fun f => f.kind == "faceless") &&
  files.any (fun f => f.kind == "product")

/-- The identifierToUrlMap lookup (order/route.ts lines 197-199).
`Object.fromEntries` keeps the last entry for a duplicated key, hence the
search over the reversed list. -/
def identifierToUrl (files : List UploadedFile) (ident : String) : Option String :=
  (files.reverse.find? (fun f => f.geminiFileIdentifier == ident)).map
    (fun f => f.localUrl)

/-- Remapping of one image ID (order/route.ts line 204):
`identifierToUrlMap[identifier] || identifier`, so an ID with no mapping, or
whose mapped URL is the empty (falsy) string, passes through unchanged. -/
def remapImage (files : List UploadedFile) (ident : String) : String :=
  match identifierToUrl files ident with
  | some url => if url == "" then ident else url
  | none => ident

/-- processedSlideshows (order/route.ts lines 202-205): remap every image of
every slideshow, keep themes. -/
def processSlideshows (files : List UploadedFile) (slideshows : List OrderedSlideshow) :
    List OrderedSlideshow :=
  slideshows.map (fun s => { theme := s.theme, images := s.images.map (remapImage files) })

/-- POST /api/order (order/route.ts lines 7-219): 400 when no files or a
missing image type; otherwise invoke Gemini (with the mock-plan fallback
inside invokeGeminiWithTool) and remap the returned image IDs.  The error
value is the HTTP status code. -/
def orderPOST (req : OrderRequest) (now : Nat) (o : GeminiOutcome) :
    Except Nat (List OrderedSlideshow) :=
  if req.files.isEmpty then .error 400
  else if ¬ hasAllTypes req.files then .error 400
  else .ok (processSlideshows req.files (invokeGeminiCreatePlan now o))

/-! ### anthropic.ts: caption generation with retry / backoff / fallback -/

/-- The hard-coded mock caption list (anthropic.ts lines 226-231). -/
def mockCaptionList : List String :=
  [ "Tired of sleepless nights? (Mock)"
  , "Tossing and turning won't stop (Mock)"
  , "Wake up refreshed and renewed (Mock)"
  , "Try SleepEase, fall asleep in minutes (Mock)" ]

/-- generateMockCaptions (anthropic.ts lines 225-233):
`mockCaptions.slice(0, count)`. -/
def generateMockCaptions (count : Nat) : List String :=
  mockCaptionList.take count

/-- Outcome of one Claude messages.create attempt, as far as the catch
logic of generateCaptions (anthropic.ts lines 165-217) distinguishes cases:
a response whose text parsed to a captions array, a 429 / rate-limit error
(with the parsed Retry-After header seconds, when present and numeric), a
404 not_found_error, a JSON SyntaxError, or any other thrown error
(including image-fetch failures). -/
inductive ClaudeOutcome where
  | success (captions : List String)
  | rateLimit (retryAfterSecs : Option Nat)
  | notFound
  | syntaxErr
  | otherErr
  deriving DecidableEq, Repr

/-- Result of one generateCaptions call: the returned caption list, the
sleep durations (ms) performed for rate-limit backoff, in order, and the
number of Claude API attempts made. -/
structure CaptionRun where
  captions : List String
  waits : List Nat
  calls : Nat
  deriving DecidableEq, Repr

/-- Exit of the retry loop with mock captions (anthropic.ts lines 213-214,
220-221). -/
def mockRun (imageCount calls : Nat) (waits : List Nat) : CaptionRun :=
  { captions := generateMockCaptions imageCount, waits := waits.reverse, calls := calls }

/-- The while loop of generateCaptions (anthropic.ts lines 73-218).
`outcomes k` is the outcome of the (k+1)-th Claude attempt; `attempt` and
`delay` are the loop variables; `waits` accumulates performed sleeps in
reverse; `fuel` bounds the recursion (each iteration increases `attempt`,
so `maxRetries + 2` initial fuel dominates the loop). -/
def generateCaptionsLoop (outcomes : Nat → ClaudeOutcome) (imageCount maxRetries : Nat) :
    Nat → Nat → List Nat → Nat → CaptionRun
  | _, _, waits, 0 => mockRun imageCount 0 waits
  | attempt, delay, waits, fuel + 1 =>
    if attempt > maxRetries then
      -- loop condition false: failsafe mock return (lines 220-221)
      mockRun imageCount attempt waits
    else
      match outcomes attempt with
      | .success cs =>
        if cs.length = imageCount then
          -- parsed captions of the right length are returned (lines 133-135)
          { captions := cs, waits := waits.reverse, calls := attempt + 1 }
        else
          -- wrong shape throws SyntaxError (lines 137-138), handled in catch:
          -- mock when retries exhausted, else next attempt (lines 212-216)
          if attempt ≥ maxRetries then mockRun imageCount (attempt + 1) waits
          else generateCaptionsLoop outcomes imageCount maxRetries (attempt + 1) delay waits fuel
      | .rateLimit h =>
        if attempt < maxRetries then
          -- wait Retry-After seconds when the header parsed, else the
          -- current delay; then double the delay (lines 180-197)
          let waitTime := match h with | some secs => secs * 1000 | none => delay
          generateCaptionsLoop outcomes imageCount maxRetries (attempt + 1) (delay * 2)
            (waitTime :: waits) fuel
        else
          -- retries exhausted: fall through to mock (lines 198-201, 212-214)
          mockRun imageCount (attempt + 1) waits
      | .notFound =>
        -- non-recoverable: attempt := maxRetries + 1 and continue, so the
        -- loop exits and the failsafe mock return runs (lines 173-177, 220-221)
        generateCaptionsLoop outcomes imageCount maxRetries (maxRetries + 1) delay waits fuel
      | .syntaxErr =>
        if attempt ≥ maxRetries then mockRun imageCount (attempt + 1) waits
        else generateCaptionsLoop outcomes imageCount maxRetries (attempt + 1) delay waits fuel
      | .otherErr =>
        if attempt ≥ maxRetries then mockRun imageCount (attempt + 1) waits
        else generateCaptionsLoop outcomes imageCount maxRetries (attempt + 1) delay waits fuel

/-- generateCaptions (anthropic.ts lines 46-222), with the defaults
maxRetries = 2 and initialDelay = 1000 supplied by callers.  `imageCount`
is `imageUrls.length`. -/
def generateCaptions (imageCount : Nat) (outcomes : Nat → ClaudeOutcome)
    (maxRetries : Nat := 2) (initialDelay : Nat := 1000) : CaptionRun :=
  generateCaptionsLoop outcomes imageCount maxRetries 0 initialDelay [] (maxRetries + 2)

/-! ### /api/caption handler and the batch caption fan-out -/

/-- A slide sent to the caption handler (src/lib/types.ts,
interface CaptionRequest). -/
structure Slide where
  theme : String
  images : List String
  deriving DecidableEq, Repr

/-- URL absolutisation in the caption handler (caption route lines 24-31). -/
def toAbsoluteUrl (baseUrl url : String) : String :=
  if url.startsWith "http" then url
  else baseUrl ++ (if url.startsWith "/" then "" else "/") ++ url

/-- POST /api/caption (the caption route handler): 400 unless the slide has
exactly 4 images; otherwise absolutise the URLs and call generateCaptions.
The error value is the HTTP status code. -/
def captionPOST (slide : Slide) (baseUrl : String) (outcomes : Nat → ClaudeOutcome) :
    Except Nat (List String) :=
  if slide.images.length ≠ 4 then .error 400
  else .ok (generateCaptions ((slide.images.map (toAbsoluteUrl baseUrl)).length) outcomes).captions

/-- One caption fan-out task (migrate/route.ts lines 424-462): POST the
slide to /api/caption, throw on a non-ok response, and build the result
entry from the slide's theme and images plus the returned captions. -/
def fanOutEntry (slide : Slide) (baseUrl : String) (outcomes : Nat → ClaudeOutcome) :
    Except Nat Slideshow :=
  match captionPOST slide baseUrl outcomes with
  | .error e => .error e
  | .ok cs => .ok { theme := slide.theme, images := slide.images, captions := cs }

/-- The caption fan-out over slides with indices `start`, `start+1`, ...:
`outcomeFor i` gives the Claude outcomes of the task for slide `i`.
Promise.all keeps results positional, so the result list is index-aligned
with the input list; a failed task rejects the whole batch. -/
def fanOutFrom (baseUrl : String) (outcomeFor : Nat → Nat → ClaudeOutcome) :
    Nat → List Slide → Except Nat (List Slideshow)
  | _, [] => .ok []
  | i, s :: rest =>
    match fanOutEntry s baseUrl (outcomeFor i) with
    | .error e => .error e
    | .ok entry =>
      match fanOutFrom baseUrl outcomeFor (i + 1) rest with
      | .error e => .error e
      | .ok entries => .ok (entry :: entries)

/-- The caption fan-out of the batch handler (migrate/route.ts lines
424-466): `orderData.slideshows.map((slide, index) => limit(...))` followed
by `Promise.all(captionPromises)`. -/
def fanOut (slides : List Slide) (baseUrl : String)
    (outcomeFor : Nat → Nat → ClaudeOutcome) : Except Nat (List Slideshow) :=
  fanOutFrom baseUrl outcomeFor 0 slides

/-! ### Batch handler SSE stream (migrate/route.ts lines 306-561) -/

/-- One Server-Sent Event as emitted by sendSSEEvent (migrate/route.ts
lines 325-332): a named event with its JSON payload, reduced to the fields
the spec talks about (the progress percentage of status events and the
message of error events). -/
inductive SSEEvent where
  | status (message : String) (progress : Nat)
  | complete
  | error (message : String)
  deriving DecidableEq, Repr

/-- The progress percentage of the status event of caption task `i` out of
`n` (migrate/route.ts line 429): 40 + floor((i / n) * 50). -/
def captionProgress (i n : Nat) : Nat := 40 + i * 50 / n

/-- The status event emitted at the start of caption task `i` out of `n`
(migrate/route.ts lines 427-430). -/
def captionStatusEvent (i n : Nat) : SSEEvent :=
  .status ("Generating captions for slideshow " ++ toString (i + 1) ++ "/" ++ toString n)
    (captionProgress i n)

/-- The externally determined outcomes of one batch handler run
(migrate/route.ts lines 343-561): whether the body parsed, whether the
order fetch succeeded, how many slideshows the ordering stage returned,
whether every caption fetch succeeded, how many caption tasks had already
started (and hence emitted their status event) when a caption failure
rejected the batch, and the error message of the failure, if any. -/
structure BatchEnv where
  parseOk : Bool
  orderOk : Bool
  slides : Nat
  captionsOk : Bool
  started : Nat
  errMsg : String
  deriving DecidableEq, Repr

/-- The sequence of SSE events one batch run emits (migrate/route.ts lines
343-561).  Caption task status events are emitted at task start, and
p-limit starts queued tasks in submission order, so they appear in index
order; after the error event the finally block closes the stream in the
same continuation, so no event follows it.  Database-save failures are
swallowed (lines 520-523) and change no events; cleanup failures likewise
(lines 493-496, and deleteGeminiFile catches internally). -/
def batchTrace (env : BatchEnv) : List SSEEvent :=
  if ¬ env.parseOk then [.error env.errMsg]
  else
    [ .status "Starting batch processing" 0
    , .status "Ordering slideshows with Gemini" 10 ] ++
    if ¬ env.orderOk then [.error env.errMsg]
    else
      [ .status "Successfully ordered slideshows" 30
      , .status "Generating captions with Claude" 40 ] ++
      if env.captionsOk then
        ((List.range env.slides).map (fun i => captionStatusEvent i env.slides)) ++
        [ .status "Cleaning up temporary files" 95
        , .status "Saving generation to database" 95
        , .status "Batch processing complete" 100
        , .complete ]
      else
        ((List.range (min env.started env.slides)).map
          (fun i => captionStatusEvent i env.slides)) ++
        [.error env.errMsg]

/-- The progress values carried by the status events of a trace, in
emission order. -/
def statusProgresses : List SSEEvent → List Nat
  | [] => []
  | .status _ p :: t => p :: statusProgresses t
  | .complete :: t => statusProgresses t
  | .error _ :: t => statusProgresses t

/-! ### p-limit concurrency bound (migrate/route.ts line 422) -/

/-- The state of one p-limit instance: the concurrency limit, the number of
currently running tasks (activeCount), and the queue of pending task ids. -/
structure LimitState where
  limit : Nat
  activeCount : Nat
  queue : List Nat
  deriving DecidableEq, Repr

/-- Events driving a p-limit instance: a new task is submitted, or a
running task finishes. -/
inductive LimitOp where
  | submit (id : Nat)
  | taskDone
  deriving DecidableEq, Repr

/-- One step of the p-limit state machine: a submitted task runs
immediately when activeCount < limit, otherwise it is enqueued; when a
running task finishes, activeCount drops and the next queued task, if any,
starts in its place. -/
def limitStep (s : LimitState) : LimitOp → LimitState
  | .submit id =>
    if s.activeCount < s.limit then { s with activeCount := s.activeCount + 1 }
    else { s with queue := s.queue ++ [id] }
  | .taskDone =>
    match s.queue with
    | [] => { s with activeCount := s.activeCount - 1 }
    | _ :: rest => { s with queue := rest }

/-- A fresh pLimit(n) instance: nothing running, nothing queued. -/
def pLimitInit (n : Nat) : LimitState :=
  { limit := n, activeCount := 0, queue := [] }

/-- Run a p-limit instance over a sequence of events. -/
def runLimit (s : LimitState) (ops : List LimitOp) : LimitState :=
  ops.foldl limitStep s

/-- Observable steps of one caption fan-out task (migrate/route.ts lines
425-448), in program order. -/
inductive TaskAction where
  | emitStatus (progress : Nat)
  | sleep (ms : Nat)
  | fetchCaption
  deriving DecidableEq, Repr

/-- The body of caption task `i` out of `n` (migrate/route.ts lines
425-448): emit the progress status event, sleep 200 ms when index > 0, then
POST to /api/caption. -/
def captionTaskBody (i n : Nat) : List TaskAction :=
  [.emitStatus (captionProgress i n)] ++
  (if 0 < i then [.sleep 200] else []) ++
  [.fetchCaption]

/-- The concurrency limit of the caption fan-out (migrate/route.ts line
422: `const limit = pLimit(3)`). -/
def captionLimit : Nat := 3

/-- The length of a successful handler result, `none` on an error
response. -/
def okLength {α : Type} (e : Except Nat (List α)) : Option Nat :=
  match e with
  | .ok l => some l.length
  | .error _ => none

/-- A minimal valid files list for the order handler: one file of each
kind. -/
def sampleFiles : List UploadedFile :=
  [ { kind := "face", localUrl := "/uploads/a.png", geminiFileIdentifier := "files/a"
    , geminiFileUri := "https://g/a", mime := "image/png" }
  , { kind := "faceless", localUrl := "/uploads/b.png", geminiFileIdentifier := "files/b"
    , geminiFileUri := "https://g/b", mime := "image/png" }
  , { kind := "product", localUrl := "/uploads/c.png", geminiFileIdentifier := "files/c"
    , geminiFileUri := "https://g/c", mime := "image/png" } ]

/-- An order request with the spec's example configuration: 3 themes,
10 slideshows per theme, 4 frames per slideshow. -/
def sampleOrderRequest : OrderRequest :=
  { files := sampleFiles
  , themes := ["PMS", "Insomnia", "Anxiety"]
  , slideshowsPerTheme := 10
  , framesPerSlideshow := 4 }

/-- Two sample ordered slides for exercising the caption fan-out. -/
def sampleSlides : List Slide :=
  [ { theme := "PMS", images := ["/u/a.png", "/u/b.png", "/u/c.png", "/u/d.png"] }
  , { theme := "Insomnia", images := ["/u/e.png", "/u/f.png", "/u/g.png", "/u/h.png"] } ]

/-- Sample Claude outcomes per fan-out task: the first task's call parses
on the first attempt, every other task is rate limited on every attempt
(and hence falls back to the mock captions). -/
def sampleOutcomes : Nat → Nat → ClaudeOutcome :=
  fun i _ =>
    if i == 0 then ClaudeOutcome.success ["one", "two", "three", "four"]
    else ClaudeOutcome.rateLimit none

/-- The fan-out result on the sample slides and outcomes. -/
def sampleFanOutResult : List Slideshow :=
  [ { theme := "PMS", images := ["/u/a.png", "/u/b.png", "/u/c.png", "/u/d.png"]
    , captions := ["one", "two", "three", "four"] }
  , { theme := "Insomnia", images := ["/u/e.png", "/u/f.png", "/u/g.png", "/u/h.png"]
    , captions := mockCaptionList } ]

/-- The numeric value of a decimal digit character ('0'..'9' have code
points 48..57).  Used to invert the decimal rendering `Date.now()` receives
inside the mock image IDs. -/
def digitVal (c : Char) : Nat := c.toNat - 48

/-- Evaluate a list of decimal digit characters back to the number they
denote (left inverse of Nat.repr on its output). -/
def evalDigits (l : List Char) : Nat :=
  l.foldl (fun acc c => acc * 10 + digitVal c) 0

/-! ## Helper lemmas -/

deriving instance DecidableEq for Except

/-- The mock plan always has exactly three slideshows. -/
lemma mock_plan_length (t : Nat) : (generateMockSlideShowResponse t).length = 3 := by
  simp [generateMockSlideShowResponse]

/-- Every slideshow of the mock plan has exactly four images. -/
lemma mock_plan_images (t : Nat) :
    ∀ s ∈ generateMockSlideShowResponse t, s.images.length = 4 := by
  intro s hs
  simp only [generateMockSlideShowResponse, List.mem_map, List.mem_range] at hs
  obtain ⟨i, _, rfl⟩ := hs
  rfl

/-- The themes of the mock plan do not depend on the timestamp. -/
lemma mock_plan_themes (t : Nat) :
    (generateMockSlideShowResponse t).map OrderedSlideshow.theme =
      ["PMS", "Insomnia", "Anxiety"] := by
  rfl

/-- processSlideshows preserves themes and image counts entry by entry. -/
lemma processSlideshows_forall₂ (files : List UploadedFile)
    (plan : List OrderedSlideshow) :
    List.Forall₂
      (fun a b => a.theme = b.theme ∧ a.images = b.images.map (remapImage files))
      (processSlideshows files plan) plan := by
  induction plan with
  | nil => exact List.Forall₂.nil
  | cons s rest ih => exact List.Forall₂.cons ⟨rfl, rfl⟩ ih

/-- A successful orderPOST result is exactly the processed Gemini plan. -/
lemma orderPOST_ok (req : OrderRequest) (now : Nat) (o : GeminiOutcome)
    (out : List OrderedSlideshow) (h : orderPOST req now o = .ok out) :
    out = processSlideshows req.files (invokeGeminiCreatePlan now o) := by
  unfold orderPOST at h
  split at h
  · exact absurd h (by simp)
  · split at h
    · exact absurd h (by simp)
    · exact (Except.ok.injEq _ _ ▸ h).symm

/-- digitVal inverts Nat.digitChar on decimal digits. -/
lemma digitVal_digitChar : ∀ r, r < 10 → digitVal (Nat.digitChar r) = r := by
  decide

/-- Digits accumulated by Nat.toDigitsCore are appended on the right. -/
lemma toDigitsCore_acc (fuel : Nat) :
    ∀ n ds, Nat.toDigitsCore 10 fuel n ds = Nat.toDigitsCore 10 fuel n [] ++ ds := by
  induction fuel with
  | zero => intro n ds; simp [Nat.toDigitsCore]
  | succ fuel ih =>
    intro n ds
    simp only [Nat.toDigitsCore]
    by_cases h : n / 10 = 0
    · simp [h]
    · simp only [h, if_neg, ite_false]
      rw [ih (n / 10) (Nat.digitChar (n % 10) :: ds),
        ih (n / 10) [Nat.digitChar (n % 10)]]
      simp

/-- Appending one digit multiplies the evaluated prefix by ten. -/
lemma evalDigits_snoc (l : List Char) (c : Char) :
    evalDigits (l ++ [c]) = evalDigits l * 10 + digitVal c := by
  simp [evalDigits, List.foldl_append]

/-- Evaluating the digits Nat.toDigitsCore produces recovers the number,
for sufficient fuel. -/
lemma toDigitsCore_eval : ∀ fuel n, n < fuel →
    evalDigits (Nat.toDigitsCore 10 fuel n []) = n := by
  intro fuel
  induction fuel with
  | zero => intro n h; omega
  | succ fuel ih =>
    intro n h
    simp only [Nat.toDigitsCore]
    by_cases h0 : n / 10 = 0
    · have hn : n < 10 := by omega
      simp only [h0, ite_true, if_pos]
      show evalDigits [Nat.digitChar (n % 10)] = n
      simp [evalDigits, Nat.mod_eq_of_lt hn, digitVal_digitChar n hn]
    · have h10 : 10 ≤ n := by omega
      have hlt : n / 10 < fuel := by
        have : n / 10 < n := Nat.div_lt_self (by omega) (by norm_num)
        omega
      simp only [h0, ite_false, if_neg]
      rw [toDigitsCore_acc, evalDigits_snoc, ih (n / 10) hlt,
        digitVal_digitChar (n % 10) (Nat.mod_lt n (by omega))]
      omega

/-- Nat.repr is injective: equal decimal renderings mean equal numbers. -/
lemma Nat_repr_data_inj {t u : Nat}
    (h : (Nat.repr t).data = (Nat.repr u).data) : t = u := by
  have ht := toDigitsCore_eval (t + 1) t (Nat.lt_succ_self t)
  have hu := toDigitsCore_eval (u + 1) u (Nat.lt_succ_self u)
  have hdata : Nat.toDigitsCore 10 (t + 1) t [] = Nat.toDigitsCore 10 (u + 1) u [] := h
  rw [← ht, ← hu, hdata]

/-- The mock plan determines its timestamp: plans built at different
`Date.now()` values are different, because the first image ID embeds the
timestamp's decimal rendering. -/
lemma mock_plan_inj {t u : Nat}
    (h : generateMockSlideShowResponse t = generateMockSlideShowResponse u) : t = u := by
  have h3 : List.range 3 = [0, 1, 2] := rfl
  simp only [generateMockSlideShowResponse, h3, List.map] at h
  injection h with h0 hrest
  have himg : (mockSlideshow t 0).images = (mockSlideshow u 0).images :=
    congrArg OrderedSlideshow.images h0
  simp only [mockSlideshow] at himg
  injection himg with h1 hrest2
  have hdata := congrArg String.data h1
  simp only [String.data_append] at hdata
  have s1 := List.append_cancel_right hdata
  have s2 := List.append_cancel_right s1
  have s3 := List.append_cancel_right s2
  have s4 := List.append_cancel_left s3
  exact Nat_repr_data_inj s4

/-! ## C4: determinism of the fallback plan -/

/-- C4 counterexample: two order-handler invocations on the same request
with a forced-failure upstream response, made at timestamps 0 and 1,
produce different placeholder plans, because generateMockSlideShowResponse
interpolates `Date.now()` into every image ID (google.ts lines 372-375).
So the fallback is not a deterministic function of the request alone. -/
theorem c4_counterexample :
    orderPOST sampleOrderRequest 0 GeminiOutcome.apiError ≠
      orderPOST sampleOrderRequest 1 GeminiOutcome.apiError := by
  decide

/-- C4 (amended): two forced-failure invocations of the ordering stage
produce placeholder plans with the same themes and the same shape (three
slideshows of four images each), and the plans are fully equal exactly when
the two invocations see the same `Date.now()` timestamp: the image IDs
embed the timestamp's decimal rendering, so calls at different times always
produce different plans. -/
theorem c4_mock_plan_determinism (t u : Nat) :
    (generateMockSlideShowResponse t).map OrderedSlideshow.theme =
      (generateMockSlideShowResponse u).map OrderedSlideshow.theme ∧
    (generateMockSlideShowResponse t).length = 3 ∧
    (∀ s ∈ generateMockSlideShowResponse t, s.images.length = 4) ∧
    (generateMockSlideShowResponse t = generateMockSlideShowResponse u ↔ t = u) := by
  refine ⟨?_, mock_plan_length t, mock_plan_images t, mock_plan_inj, ?_⟩
  · rw [mock_plan_themes, mock_plan_themes]
  · intro h
    rw [h]

/-- C4 witness: the amended statement at timestamps 7 and 7. -/
theorem c4_witness :
    generateMockSlideShowResponse 7 = generateMockSlideShowResponse 7 :=
  (c4_mock_plan_determinism 7 7).2.2.2.mpr rfl

/-! ## C8: required environment variables at process start -/

/-- C8 counterexample: with both LLM API keys present but DATABASE_URL
absent, process start succeeds — db.ts only logs the FATAL ERROR message
(the `throw` on db.ts line 8 is commented out), so absence of the Postgres
connection string is not fatal, contradicting the claim. -/
theorem c8_counterexample :
    processStartInit
      { geminiKey := some "g", anthropicKey := some "a", databaseUrl := none } =
      .ok true := by
  decide

/-- C8 (amended): at process start, a falsy GEMINI_API_KEY makes google.ts
throw, and a falsy ANTHROPIC_API_KEY makes anthropic.ts throw; but a falsy
DATABASE_URL only makes db.ts log a fatal-error message, after which
initialization succeeds. -/
theorem c8_env_checks (env : ProcessEnv) :
    (envFalsy env.geminiKey = true →
      processStartInit env = .error "Missing GEMINI_API_KEY environment variable") ∧
    (envFalsy env.geminiKey = false → envFalsy env.anthropicKey = true →
      processStartInit env = .error "Missing ANTHROPIC_API_KEY environment variable") ∧
    (envFalsy env.geminiKey = false → envFalsy env.anthropicKey = false →
      processStartInit env = .ok (envFalsy env.databaseUrl)) := by
  refine ⟨fun h => ?_, fun h1 h2 => ?_, fun h1 h2 => ?_⟩
  · simp [processStartInit, googleModuleInit, h, Bind.bind, Except.bind]
  · simp [processStartInit, googleModuleInit, anthropicModuleInit, h1, h2,
      Bind.bind, Except.bind]
  · simp [processStartInit, googleModuleInit, anthropicModuleInit, dbModuleInit,
      h1, h2, Bind.bind, Except.bind]

/-- C8 witness: an environment with no GEMINI_API_KEY fails startup with
google.ts's error. -/
theorem c8_witness :
    processStartInit { geminiKey := none, anthropicKey := some "a", databaseUrl := some "d" } =
      .error "Missing GEMINI_API_KEY environment variable" :=
  (c8_env_checks _).1 (by decide)

/-! ## C10: the caption handler requires exactly 4 images -/

/-- C10: the caption handler returns a 400 error for every slide that does
not have exactly 4 images (regardless of any framesPerSlideshow setting,
which the handler never reads), and conversely a successful response
implies the slide had exactly 4 images. -/
theorem c10_caption_four_images (slide : Slide) (baseUrl : String)
    (outcomes : Nat → ClaudeOutcome) :
    (slide.images.length ≠ 4 → captionPOST slide baseUrl outcomes = .error 400) ∧
    (∀ cs, captionPOST slide baseUrl outcomes = .ok cs → slide.images.length = 4) := by
  constructor
  · intro h
    simp [captionPOST, h]
  · intro cs h
    by_contra hne
    simp [captionPOST, hne] at h

/-- C10 witness: a slide with three images is rejected with a 400. -/
theorem c10_witness :
    captionPOST { theme := "PMS", images := ["a", "b", "c"] } "http://h"
      (fun _ => ClaudeOutcome.otherErr) = .error 400 :=
  (c10_caption_four_images _ _ _).1 (by decide)

/-! ## C1: ordering-stage output counts -/

/-- C1 counterexample: with the spec's example configuration (3 themes,
10 slideshows per theme, 4 frames), an order-handler run whose upstream
call fails returns a successful response with 3 slideshow entries, not
3 × 10 = 30 — the handler enforces no count at all and the fallback plan
is always 3 slideshows (google.ts line 365 loops to 3), so the claimed
N × M count does not hold. -/
theorem c1_counterexample :
    okLength (orderPOST sampleOrderRequest 0 GeminiOutcome.apiError) = some 3 ∧
    sampleOrderRequest.themes.length * sampleOrderRequest.slideshowsPerTheme = 30 := by
  decide

/-- C1 (amended): the order handler's successful response contains exactly
as many slideshow entries as the Gemini result, each with exactly as many
images as the corresponding Gemini entry — no N × M or framesPerSlideshow
count is enforced; in particular, whenever the upstream call fails or its
text is unparsable, the response is the processed fallback plan with
exactly 3 entries of 4 images each, regardless of the configured themes,
slideshowsPerTheme and framesPerSlideshow. -/
theorem c1_order_output_counts (req : OrderRequest) (now : Nat) (o : GeminiOutcome)
    (out : List OrderedSlideshow) (h : orderPOST req now o = .ok out) :
    out.length = (invokeGeminiCreatePlan now o).length ∧
    List.Forall₂ (fun a b => a.images.length = b.images.length) out
      (invokeGeminiCreatePlan now o) ∧
    ((o = GeminiOutcome.apiError ∨ o = GeminiOutcome.textUnparsable) →
      out.length = 3 ∧ ∀ s ∈ out, s.images.length = 4) := by
  have hout := orderPOST_ok req now o out h
  subst hout
  have hf := processSlideshows_forall₂ req.files (invokeGeminiCreatePlan now o)
  refine ⟨hf.length_eq, hf.imp ?_, ?_⟩
  · rintro a b ⟨-, himg⟩
    rw [himg, List.length_map]
  · rintro (rfl | rfl) <;>
      refine ⟨by simp [processSlideshows, mock_plan_length, invokeGeminiCreatePlan], ?_⟩ <;>
      · intro s hs
        simp only [processSlideshows, invokeGeminiCreatePlan, List.mem_map] at hs
        obtain ⟨m, hm, rfl⟩ := hs
        simpa using mock_plan_images now m hm

/-- C1 witness: a successful model response with one slideshow of two
images passes through with one entry of two images. -/
theorem c1_witness :
    okLength (orderPOST sampleOrderRequest 0
        (GeminiOutcome.functionCall [{ theme := "PMS", images := ["files/a", "x"] }])) =
      some 1 ∧
    ([({ theme := "PMS", images := ["/uploads/a.png", "x"] } : OrderedSlideshow)]).length =
      (invokeGeminiCreatePlan 0
        (GeminiOutcome.functionCall [{ theme := "PMS", images := ["files/a", "x"] }])).length :=
  ⟨by decide,
    (c1_order_output_counts sampleOrderRequest 0 _ _ (by decide)).1⟩

/-! ## C9: remapping of image IDs to local URLs -/

/-- C9 counterexample: a successful ordering call whose model response
contains the image ID "ghost", which matches no uploaded file, yields a
processed images array still containing "ghost" — which is not the local
URL of any file of the request — because route.ts line 204 falls back to
the identifier itself (`identifierToUrlMap[identifier] || identifier`). -/
theorem c9_counterexample :
    orderPOST sampleOrderRequest 0
        (GeminiOutcome.functionCall
          [{ theme := "PMS", images := ["ghost", "files/a", "files/b", "files/c"] }]) =
      .ok [{ theme := "PMS"
           , images := ["ghost", "/uploads/a.png", "/uploads/b.png", "/uploads/c.png"] }] ∧
    ((sampleFiles.map (fun f => f.localUrl)).contains "ghost" = false) := by
  decide

/-- C9 (amended): on a successful ordering call every image ID is rewritten
by remapImage: an ID equal to some request file's geminiFileIdentifier
becomes that file's localUrl (the last matching file, per
Object.fromEntries, and only when that URL is non-empty), while an ID
matching no file — or mapping to an empty URL — passes through unchanged
rather than becoming a local URL. -/
theorem c9_remap_to_local_urls (req : OrderRequest) (now : Nat)
    (plan : List OrderedSlideshow) (out : List OrderedSlideshow)
    (h : orderPOST req now (GeminiOutcome.functionCall plan) = .ok out) :
    List.Forall₂
      (fun a b => a.theme = b.theme ∧ a.images = b.images.map (remapImage req.files))
      out plan ∧
    (∀ ident, (∀ f ∈ req.files, f.geminiFileIdentifier ≠ ident) →
      remapImage req.files ident = ident) ∧
    (∀ ident url, identifierToUrl req.files ident = some url → url ≠ "" →
      remapImage req.files ident = url) ∧
    (∀ ident url, identifierToUrl req.files ident = some url →
      ∃ f ∈ req.files, f.geminiFileIdentifier = ident ∧ f.localUrl = url) := by
  have hout := orderPOST_ok req now (GeminiOutcome.functionCall plan) out h
  subst hout
  refine ⟨processSlideshows_forall₂ req.files plan, ?_, ?_, ?_⟩
  · intro ident hno
    have : req.files.reverse.find? (fun f => f.geminiFileIdentifier == ident) = none := by
      rw [List.find?_eq_none]
      intro f hf
      simpa using hno f (List.mem_reverse.mp hf)
    simp [remapImage, identifierToUrl, this]
  · intro ident url hfind hne
    simp only [remapImage, hfind]
    simp [hne]
  · intro ident url hfind
    simp only [identifierToUrl, Option.map_eq_some'] at hfind
    obtain ⟨f, hf, rfl⟩ := hfind
    have hmem := List.mem_reverse.mp (List.mem_of_find?_eq_some hf)
    have hid : f.geminiFileIdentifier = ident := by
      simpa using List.find?_some hf
    exact ⟨f, hmem, hid, rfl⟩

/-- C9 witness: an identifier matching no uploaded file is passed through
unchanged by the sample request's remapping. -/
theorem c9_witness :
    remapImage sampleOrderRequest.files "zzz" = "zzz" :=
  (c9_remap_to_local_urls sampleOrderRequest 0 [] []
      (by decide)).2.1 "zzz" (by decide)

/-! ## Caption retry-loop lemmas -/

/-- The mock caption list is truncated to the requested count: the result
has min(count, 4) entries. -/
lemma generateMockCaptions_length (n : Nat) :
    (generateMockCaptions n).length = min n 4 := by
  simp [generateMockCaptions, mockCaptionList]

/-- Every exit of the caption retry loop returns either the mock captions
or a successfully parsed caption list of the expected length. -/
lemma generateCaptionsLoop_spec (outcomes : Nat → ClaudeOutcome) (n maxRetries : Nat) :
    ∀ fuel attempt delay waits,
      (generateCaptionsLoop outcomes n maxRetries attempt delay waits fuel).captions =
        generateMockCaptions n ∨
      ∃ k, outcomes k =
          ClaudeOutcome.success
            ((generateCaptionsLoop outcomes n maxRetries attempt delay waits fuel).captions) ∧
        ((generateCaptionsLoop outcomes n maxRetries attempt delay waits fuel).captions).length
          = n := by
  intro fuel
  induction fuel with
  | zero =>
    intro attempt delay waits
    left
    rfl
  | succ fuel ih =>
    intro attempt delay waits
    by_cases hgt : attempt > maxRetries
    · left
      simp [generateCaptionsLoop, hgt, mockRun]
    · cases h : outcomes attempt with
      | success cs =>
        by_cases hlen : cs.length = n
        · right
          exact ⟨attempt, by simp [generateCaptionsLoop, hgt, h, hlen],
            by simp [generateCaptionsLoop, hgt, h, hlen]⟩
        · by_cases hge : attempt ≥ maxRetries
          · left
            simp [generateCaptionsLoop, hgt, h, hlen, hge, mockRun]
          · have hres :
                generateCaptionsLoop outcomes n maxRetries attempt delay waits (fuel + 1) =
                  generateCaptionsLoop outcomes n maxRetries (attempt + 1) delay waits fuel := by
              simp [generateCaptionsLoop, hgt, h, hlen, hge]
            rw [hres]
            exact ih (attempt + 1) delay waits
      | rateLimit hd =>
        by_cases hlt : attempt < maxRetries
        · cases hd with
          | some secs =>
            have hres :
                generateCaptionsLoop outcomes n maxRetries attempt delay waits (fuel + 1) =
                  generateCaptionsLoop outcomes n maxRetries (attempt + 1) (delay * 2)
                    (secs * 1000 :: waits) fuel := by
              simp [generateCaptionsLoop, hgt, h, hlt]
            rw [hres]
            exact ih (attempt + 1) (delay * 2) _
          | none =>
            have hres :
                generateCaptionsLoop outcomes n maxRetries attempt delay waits (fuel + 1) =
                  generateCaptionsLoop outcomes n maxRetries (attempt + 1) (delay * 2)
                    (delay :: waits) fuel := by
              simp [generateCaptionsLoop, hgt, h, hlt]
            rw [hres]
            exact ih (attempt + 1) (delay * 2) _
        · left
          simp [generateCaptionsLoop, hgt, h, hlt, mockRun]
      | notFound =>
        have hres :
            generateCaptionsLoop outcomes n maxRetries attempt delay waits (fuel + 1) =
              generateCaptionsLoop outcomes n maxRetries (maxRetries + 1) delay waits fuel := by
          simp [generateCaptionsLoop, hgt, h]
        rw [hres]
        exact ih (maxRetries + 1) delay waits
      | syntaxErr =>
        by_cases hge : attempt ≥ maxRetries
        · left
          simp [generateCaptionsLoop, hgt, h, hge, mockRun]
        · have hres :
              generateCaptionsLoop outcomes n maxRetries attempt delay waits (fuel + 1) =
                generateCaptionsLoop outcomes n maxRetries (attempt + 1) delay waits fuel := by
            simp [generateCaptionsLoop, hgt, h, hge]
          rw [hres]
          exact ih (attempt + 1) delay waits
      | otherErr =>
        by_cases hge : attempt ≥ maxRetries
        · left
          simp [generateCaptionsLoop, hgt, h, hge, mockRun]
        · have hres :
              generateCaptionsLoop outcomes n maxRetries attempt delay waits (fuel + 1) =
                generateCaptionsLoop outcomes n maxRetries (attempt + 1) delay waits fuel := by
            simp [generateCaptionsLoop, hgt, h, hge]
          rw [hres]
          exact ih (attempt + 1) delay waits

/-- The sleeps already accumulated when the loop is entered form a prefix
of the final wait list. -/
lemma generateCaptionsLoop_waits_prefix (outcomes : Nat → ClaudeOutcome) (n maxRetries : Nat) :
    ∀ fuel attempt delay waits, ∃ tail,
      (generateCaptionsLoop outcomes n maxRetries attempt delay waits fuel).waits =
        waits.reverse ++ tail := by
  intro fuel
  induction fuel with
  | zero =>
    intro attempt delay waits
    exact ⟨[], by simp [generateCaptionsLoop, mockRun]⟩
  | succ fuel ih =>
    intro attempt delay waits
    by_cases hgt : attempt > maxRetries
    · exact ⟨[], by simp [generateCaptionsLoop, hgt, mockRun]⟩
    · cases h : outcomes attempt with
      | success cs =>
        by_cases hlen : cs.length = n
        · exact ⟨[], by simp [generateCaptionsLoop, hgt, h, hlen]⟩
        · by_cases hge : attempt ≥ maxRetries
          · exact ⟨[], by simp [generateCaptionsLoop, hgt, h, hlen, hge, mockRun]⟩
          · obtain ⟨tail, htail⟩ := ih (attempt + 1) delay waits
            exact ⟨tail, by simp only [generateCaptionsLoop, hgt, h, hlen, hge]; simpa using htail⟩
      | rateLimit hd =>
        by_cases hlt : attempt < maxRetries
        · cases hd with
          | some secs =>
            obtain ⟨tail, htail⟩ := ih (attempt + 1) (delay * 2) (secs * 1000 :: waits)
            refine ⟨secs * 1000 :: tail, ?_⟩
            have hres :
                generateCaptionsLoop outcomes n maxRetries attempt delay waits (fuel + 1) =
                  generateCaptionsLoop outcomes n maxRetries (attempt + 1) (delay * 2)
                    (secs * 1000 :: waits) fuel := by
              simp [generateCaptionsLoop, hgt, h, hlt]
            rw [hres, htail]
            simp
          | none =>
            obtain ⟨tail, htail⟩ := ih (attempt + 1) (delay * 2) (delay :: waits)
            refine ⟨delay :: tail, ?_⟩
            have hres :
                generateCaptionsLoop outcomes n maxRetries attempt delay waits (fuel + 1) =
                  generateCaptionsLoop outcomes n maxRetries (attempt + 1) (delay * 2)
                    (delay :: waits) fuel := by
              simp [generateCaptionsLoop, hgt, h, hlt]
            rw [hres, htail]
            simp
        · exact ⟨[], by simp [generateCaptionsLoop, hgt, h, hlt, mockRun]⟩
      | notFound =>
        obtain ⟨tail, htail⟩ := ih (maxRetries + 1) delay waits
        have hres :
            generateCaptionsLoop outcomes n maxRetries attempt delay waits (fuel + 1) =
              generateCaptionsLoop outcomes n maxRetries (maxRetries + 1) delay waits fuel := by
          simp [generateCaptionsLoop, hgt, h]
        exact ⟨tail, by rw [hres, htail]⟩
      | syntaxErr =>
        by_cases hge : attempt ≥ maxRetries
        · exact ⟨[], by simp [generateCaptionsLoop, hgt, h, hge, mockRun]⟩
        · obtain ⟨tail, htail⟩ := ih (attempt + 1) delay waits
          have hres :
              generateCaptionsLoop outcomes n maxRetries attempt delay waits (fuel + 1) =
                generateCaptionsLoop outcomes n maxRetries (attempt + 1) delay waits fuel := by
            simp [generateCaptionsLoop, hgt, h, hge]
          exact ⟨tail, by rw [hres, htail]⟩
      | otherErr =>
        by_cases hge : attempt ≥ maxRetries
        · exact ⟨[], by simp [generateCaptionsLoop, hgt, h, hge, mockRun]⟩
        · obtain ⟨tail, htail⟩ := ih (attempt + 1) delay waits
          have hres :
              generateCaptionsLoop outcomes n maxRetries attempt delay waits (fuel + 1) =
                generateCaptionsLoop outcomes n maxRetries (attempt + 1) delay waits fuel := by
            simp [generateCaptionsLoop, hgt, h, hge]
          exact ⟨tail, by rw [hres, htail]⟩

/-- The loop makes at most maxRetries + 1 API calls. -/
lemma generateCaptionsLoop_calls_le (outcomes : Nat → ClaudeOutcome) (n maxRetries : Nat) :
    ∀ fuel attempt delay waits, attempt ≤ maxRetries + 1 →
      (generateCaptionsLoop outcomes n maxRetries attempt delay waits fuel).calls ≤
        maxRetries + 1 := by
  intro fuel
  induction fuel with
  | zero =>
    intro attempt delay waits _
    simp [generateCaptionsLoop, mockRun]
  | succ fuel ih =>
    intro attempt delay waits hle
    by_cases hgt : attempt > maxRetries
    · simpa [generateCaptionsLoop, hgt, mockRun] using hle
    · have hle' : attempt + 1 ≤ maxRetries + 1 := by omega
      cases h : outcomes attempt with
      | success cs =>
        by_cases hlen : cs.length = n
        · simpa [generateCaptionsLoop, hgt, h, hlen] using hle'
        · by_cases hge : attempt ≥ maxRetries
          · simpa [generateCaptionsLoop, hgt, h, hlen, hge, mockRun] using hle'
          · have hres :
                generateCaptionsLoop outcomes n maxRetries attempt delay waits (fuel + 1) =
                  generateCaptionsLoop outcomes n maxRetries (attempt + 1) delay waits fuel := by
              simp [generateCaptionsLoop, hgt, h, hlen, hge]
            rw [hres]
            exact ih (attempt + 1) delay waits hle'
      | rateLimit hd =>
        by_cases hlt : attempt < maxRetries
        · cases hd with
          | some secs =>
            have hres :
                generateCaptionsLoop outcomes n maxRetries attempt delay waits (fuel + 1) =
                  generateCaptionsLoop outcomes n maxRetries (attempt + 1) (delay * 2)
                    (secs * 1000 :: waits) fuel := by
              simp [generateCaptionsLoop, hgt, h, hlt]
            rw [hres]
            exact ih (attempt + 1) (delay * 2) _ hle'
          | none =>
            have hres :
                generateCaptionsLoop outcomes n maxRetries attempt delay waits (fuel + 1) =
                  generateCaptionsLoop outcomes n maxRetries (attempt + 1) (delay * 2)
                    (delay :: waits) fuel := by
              simp [generateCaptionsLoop, hgt, h, hlt]
            rw [hres]
            exact ih (attempt + 1) (delay * 2) _ hle'
        · simpa [generateCaptionsLoop, hgt, h, hlt, mockRun] using hle'
      | notFound =>
        have hres :
            generateCaptionsLoop outcomes n maxRetries attempt delay waits (fuel + 1) =
              generateCaptionsLoop outcomes n maxRetries (maxRetries + 1) delay waits fuel := by
          simp [generateCaptionsLoop, hgt, h]
        rw [hres]
        exact ih (maxRetries + 1) delay waits (by omega)
      | syntaxErr =>
        by_cases hge : attempt ≥ maxRetries
        · simpa [generateCaptionsLoop, hgt, h, hge, mockRun] using hle'
        · have hres :
              generateCaptionsLoop outcomes n maxRetries attempt delay waits (fuel + 1) =
                generateCaptionsLoop outcomes n maxRetries (attempt + 1) delay waits fuel := by
            simp [generateCaptionsLoop, hgt, h, hge]
          rw [hres]
          exact ih (attempt + 1) delay waits hle'
      | otherErr =>
        by_cases hge : attempt ≥ maxRetries
        · simpa [generateCaptionsLoop, hgt, h, hge, mockRun] using hle'
        · have hres :
              generateCaptionsLoop outcomes n maxRetries attempt delay waits (fuel + 1) =
                generateCaptionsLoop outcomes n maxRetries (attempt + 1) delay waits fuel := by
            simp [generateCaptionsLoop, hgt, h, hge]
          rw [hres]
          exact ih (attempt + 1) delay waits hle'

/-! ## C7: rate-limit retry with doubling backoff and mock fallback -/

/-- When every attempt hits a 429 without a Retry-After header, the default
call (maxRetries = 2, initialDelay = 1000) makes 3 attempts, sleeps 1000 ms
then 2000 ms, and returns the mock captions. -/
lemma generateCaptions_all_rate_limited (n : Nat) (outcomes : Nat → ClaudeOutcome)
    (h : ∀ k, outcomes k = ClaudeOutcome.rateLimit none) :
    generateCaptions n outcomes =
      { captions := generateMockCaptions n, waits := [1000, 2000], calls := 3 } := by
  simp [generateCaptions, generateCaptionsLoop, h, mockRun]

/-- C7: with the default maxRetries = 2 and initialDelay = 1000, a call
whose every attempt is rate limited retries twice with sleeps of 1000 ms
then 2000 ms (the delay doubles after each retry) and then returns the
placeholder captions; when the first 429 carries a numeric Retry-After
header of `secs` seconds, the first sleep is secs × 1000 ms instead; at
most maxRetries + 1 = 3 API calls are ever made; and on every outcome
sequence the call returns a caption list — either a successfully parsed
one of the expected length, or the placeholder — rather than raising. -/
theorem c7_caption_retry_behavior (n : Nat) (outcomes : Nat → ClaudeOutcome) :
    ((∀ k, outcomes k = ClaudeOutcome.rateLimit none) →
      generateCaptions n outcomes =
        { captions := generateMockCaptions n, waits := [1000, 2000], calls := 3 }) ∧
    (∀ secs, outcomes 0 = ClaudeOutcome.rateLimit (some secs) →
      ∃ tail, (generateCaptions n outcomes).waits = secs * 1000 :: tail) ∧
    (generateCaptions n outcomes).calls ≤ 3 ∧
    ((generateCaptions n outcomes).captions = generateMockCaptions n ∨
      ∃ k, outcomes k =
          ClaudeOutcome.success ((generateCaptions n outcomes).captions) ∧
        ((generateCaptions n outcomes).captions).length = n) := by
  refine ⟨generateCaptions_all_rate_limited n outcomes, ?_, ?_, ?_⟩
  · intro secs h0
    have hres :
        generateCaptions n outcomes =
          generateCaptionsLoop outcomes n 2 1 2000 [secs * 1000] 3 := by
      simp [generateCaptions, generateCaptionsLoop, h0]
    obtain ⟨tail, htail⟩ :=
      generateCaptionsLoop_waits_prefix outcomes n 2 3 1 2000 [secs * 1000]
    exact ⟨tail, by rw [hres, htail]; simp⟩
  · exact generateCaptionsLoop_calls_le outcomes n 2 4 0 1000 [] (by omega)
  · exact generateCaptionsLoop_spec outcomes n 2 4 0 1000 []

/-- C7 witness: four image URLs, every attempt rate limited without a
header — three calls, sleeps of 1000 ms and 2000 ms, mock captions. -/
theorem c7_witness :
    generateCaptions 4 (fun _ => ClaudeOutcome.rateLimit none) =
      { captions := generateMockCaptions 4, waits := [1000, 2000], calls := 3 } :=
  (c7_caption_retry_behavior 4 _).1 (fun _ => rfl)

/-! ## C2: caption counts match image counts -/

/-- A successful caption-handler response has exactly as many captions as
the slide has images (which the handler forces to be 4). -/
lemma captionPOST_ok_length (slide : Slide) (baseUrl : String)
    (outcomes : Nat → ClaudeOutcome) (cs : List String)
    (h : captionPOST slide baseUrl outcomes = .ok cs) :
    cs.length = slide.images.length := by
  unfold captionPOST at h
  split at h
  · exact absurd h (by simp)
  · rename_i h4
    rw [not_not] at h4
    have hcs : (generateCaptions slide.images.length outcomes).captions = cs := by
      simp only [List.length_map] at h
      exact Except.ok.inj h
    rw [← hcs]
    rcases generateCaptionsLoop_spec outcomes slide.images.length 2 4 0 1000 [] with hm | ⟨_, _, hlen⟩
    · have hm' : (generateCaptions slide.images.length outcomes).captions =
          generateMockCaptions slide.images.length := hm
      rw [hm', generateMockCaptions_length, h4]
      simp
    · exact hlen

/-- Every entry a fan-out task produces carries as many captions as it has
images. -/
lemma fanOutEntry_captions (slide : Slide) (baseUrl : String)
    (outcomes : Nat → ClaudeOutcome) (e : Slideshow)
    (h : fanOutEntry slide baseUrl outcomes = .ok e) :
    e.captions.length = e.images.length := by
  unfold fanOutEntry at h
  split at h
  · exact absurd h (by simp)
  · rename_i cs hcs
    have he := (Except.ok.injEq _ _ ▸ h).symm
    subst he
    simpa using captionPOST_ok_length slide baseUrl outcomes cs hcs

/-- The fan-out from any start index only produces entries whose caption
count equals their image count. -/
lemma fanOutFrom_captions (baseUrl : String) (outcomeFor : Nat → Nat → ClaudeOutcome) :
    ∀ (slides : List Slide) (i : Nat) (out : List Slideshow),
      fanOutFrom baseUrl outcomeFor i slides = .ok out →
      ∀ e ∈ out, e.captions.length = e.images.length := by
  intro slides
  induction slides with
  | nil =>
    intro i out h e he
    obtain rfl : ([] : List Slideshow) = out := Except.ok.injEq _ _ ▸ h
    simp at he
  | cons s rest ih =>
    intro i out h e he
    unfold fanOutFrom at h
    split at h
    · exact absurd h (by simp)
    · rename_i entry hentry
      split at h
      · exact absurd h (by simp)
      · rename_i entries hentries
        obtain rfl : entry :: entries = out := Except.ok.injEq _ _ ▸ h
        rcases List.mem_cons.mp he with rfl | hmem
        · exact fanOutEntry_captions s baseUrl (outcomeFor i) e hentry
        · exact ih (i + 1) entries hentries e hmem

/-- C2: for every slideshow entry the caption fan-out produces — including
entries whose captions are the placeholder fallback after exhausted
retries or unparsable responses — the captions array has exactly as many
elements as the entry's images array. -/
theorem c2_fanout_caption_counts (slides : List Slide) (baseUrl : String)
    (outcomeFor : Nat → Nat → ClaudeOutcome) (out : List Slideshow)
    (h : fanOut slides baseUrl outcomeFor = .ok out) :
    ∀ e ∈ out, e.captions.length = e.images.length :=
  fanOutFrom_captions baseUrl outcomeFor slides 0 out h

/-- C2 witness: in a sample batch whose second task exhausts its retries
and falls back to the placeholder captions, the second entry still has as
many captions as images. -/
theorem c2_witness :
    ({ theme := "Insomnia", images := ["/u/e.png", "/u/f.png", "/u/g.png", "/u/h.png"]
     , captions := mockCaptionList } : Slideshow).captions.length =
      ({ theme := "Insomnia", images := ["/u/e.png", "/u/f.png", "/u/g.png", "/u/h.png"]
       , captions := mockCaptionList } : Slideshow).images.length :=
  c2_fanout_caption_counts sampleSlides "http://h" sampleOutcomes sampleFanOutResult
    (by decide) _ (by decide)

/-! ## C5: positional fan-out results -/

/-- The fan-out from any start index returns, on success, one entry per
slide in order, each carrying the slide's theme and images. -/
lemma fanOutFrom_positional (baseUrl : String) (outcomeFor : Nat → Nat → ClaudeOutcome) :
    ∀ (slides : List Slide) (i : Nat) (out : List Slideshow),
      fanOutFrom baseUrl outcomeFor i slides = .ok out →
      List.Forall₂ (fun e s => e.theme = s.theme ∧ e.images = s.images) out slides := by
  intro slides
  induction slides with
  | nil =>
    intro i out h
    obtain rfl : ([] : List Slideshow) = out := Except.ok.injEq _ _ ▸ h
    exact List.Forall₂.nil
  | cons s rest ih =>
    intro i out h
    unfold fanOutFrom at h
    split at h
    · exact absurd h (by simp)
    · rename_i entry hentry
      split at h
      · exact absurd h (by simp)
      · rename_i entries hentries
        obtain rfl : entry :: entries = out := Except.ok.injEq _ _ ▸ h
        refine List.Forall₂.cons ?_ (ih (i + 1) entries hentries)
        unfold fanOutEntry at hentry
        split at hentry
        · exact absurd hentry (by simp)
        · obtain rfl : _ = entry := Except.ok.injEq _ _ ▸ hentry
          exact ⟨rfl, rfl⟩

/-- C5: the caption fan-out output has the same length as the ordering
output, and the entry at each position carries the theme and images of the
ordering entry at the same position — results are positional, regardless
of completion order, because Promise.all preserves the order of the mapped
promises. -/
theorem c5_fanout_positional (slides : List Slide) (baseUrl : String)
    (outcomeFor : Nat → Nat → ClaudeOutcome) (out : List Slideshow)
    (h : fanOut slides baseUrl outcomeFor = .ok out) :
    out.length = slides.length ∧
    List.Forall₂ (fun e s => e.theme = s.theme ∧ e.images = s.images) out slides := by
  have hf := fanOutFrom_positional baseUrl outcomeFor slides 0 out h
  exact ⟨hf.length_eq, hf⟩

/-- C5 witness: the sample fan-out returns exactly one entry per sample
slide. -/
theorem c5_witness :
    sampleFanOutResult.length = sampleSlides.length :=
  (c5_fanout_positional sampleSlides "http://h" sampleOutcomes sampleFanOutResult
    (by decide)).1

/-! ## C6: bounded fan-out concurrency and inter-submission delay -/

/-- p-limit steps never change the configured limit. -/
lemma limitStep_limit (s : LimitState) (op : LimitOp) :
    (limitStep s op).limit = s.limit := by
  obtain ⟨l, a, q⟩ := s
  cases op with
  | submit id =>
    by_cases hlt : a < l <;> simp [limitStep, hlt]
  | taskDone =>
    cases q <;> rfl

/-- One p-limit step preserves the invariant activeCount ≤ limit. -/
lemma limitStep_active_le (s : LimitState) (op : LimitOp)
    (h : s.activeCount ≤ s.limit) : (limitStep s op).activeCount ≤ s.limit := by
  obtain ⟨l, a, q⟩ := s
  cases op with
  | submit id =>
    simp only [limitStep]
    split
    · rename_i hlt
      simpa using hlt
    · simpa using h
  | taskDone =>
    cases q with
    | nil => simpa [limitStep] using le_trans (Nat.sub_le a 1) h
    | cons x rest => simpa [limitStep] using h

/-- Any sequence of submissions and completions keeps activeCount within
the configured limit. -/
lemma runLimit_active_le :
    ∀ (ops : List LimitOp) (s : LimitState), s.activeCount ≤ s.limit →
      (runLimit s ops).activeCount ≤ s.limit := by
  intro ops
  induction ops with
  | nil => intro s h; exact h
  | cons op rest ih =>
    intro s h
    have hstep := limitStep_active_le s op h
    have hlim := limitStep_limit s op
    have hrec := ih (limitStep s op) (by rw [hlim]; exact hstep)
    rw [hlim] at hrec
    exact hrec

/-- C6: the batch caption fan-out is wrapped in pLimit(3), so at no point
do more than 3 caption tasks run simultaneously (3 lies in the claimed
3-to-5 band), and every caption task with index > 0 sleeps a fixed 200 ms
after its status event and before its caption request, while task 0 does
not sleep. -/
theorem c6_fanout_concurrency :
    (∀ ops : List LimitOp,
      (runLimit (pLimitInit captionLimit) ops).activeCount ≤ captionLimit) ∧
    (3 ≤ captionLimit ∧ captionLimit ≤ 5) ∧
    (∀ i n, 0 < i → captionTaskBody i n =
      [TaskAction.emitStatus (captionProgress i n), TaskAction.sleep 200,
        TaskAction.fetchCaption]) ∧
    (∀ n, captionTaskBody 0 n =
      [TaskAction.emitStatus (captionProgress 0 n), TaskAction.fetchCaption]) := by
  refine ⟨?_, by decide, ?_, ?_⟩
  · intro ops
    exact runLimit_active_le ops (pLimitInit captionLimit) (by simp [pLimitInit])
  · intro i n hi
    simp [captionTaskBody, hi]
  · intro n
    simp [captionTaskBody]

/-- C6 witness: the second caption task (index 1 of 30) emits its status
event, sleeps 200 ms, then issues its caption request. -/
theorem c6_witness :
    captionTaskBody 1 30 =
      [TaskAction.emitStatus (captionProgress 1 30), TaskAction.sleep 200,
        TaskAction.fetchCaption] :=
  c6_fanout_concurrency.2.2.1 1 30 (by decide)

/-! ## C3: SSE progress monotonicity and terminal events -/

/-- The caption progress formula is monotone in the slideshow index. -/
lemma captionProgress_mono (n : Nat) {i j : Nat} (h : i ≤ j) :
    captionProgress i n ≤ captionProgress j n :=
  Nat.add_le_add_left (Nat.div_le_div_right (Nat.mul_le_mul_right 50 h)) 40

/-- Caption progress is at least 40. -/
lemma captionProgress_ge (i n : Nat) : 40 ≤ captionProgress i n :=
  Nat.le_add_right 40 _

/-- Caption progress for an in-range index is at most 90. -/
lemma captionProgress_le {i n : Nat} (h : i < n) : captionProgress i n ≤ 90 := by
  have hn : 0 < n := lt_of_le_of_lt (Nat.zero_le i) h
  have hdiv : i * 50 / n ≤ 50 := by
    calc i * 50 / n ≤ n * 50 / n := Nat.div_le_div_right (Nat.mul_le_mul_right 50 (le_of_lt h))
    _ = 50 := Nat.mul_div_cancel_left 50 hn
  simpa [captionProgress] using Nat.add_le_add_left hdiv 40

/-- statusProgresses distributes over list append. -/
lemma statusProgresses_append (l1 l2 : List SSEEvent) :
    statusProgresses (l1 ++ l2) = statusProgresses l1 ++ statusProgresses l2 := by
  induction l1 with
  | nil => rfl
  | cons e t ih => cases e <;> simp [statusProgresses, ih]

/-- The progress values of a block of caption status events are the
corresponding captionProgress values. -/
lemma statusProgresses_caption_map (n : Nat) (l : List Nat) :
    statusProgresses (l.map (fun i => captionStatusEvent i n)) =
      l.map (fun i => captionProgress i n) := by
  induction l with
  | nil => rfl
  | cons i t ih =>
    simp only [List.map_cons, captionStatusEvent, statusProgresses]
    simpa [captionStatusEvent] using ih

/-- A block of caption progress values over indices below k is pairwise
non-decreasing. -/
lemma caption_block_pairwise (n k : Nat) :
    ((List.range k).map (fun i => captionProgress i n)).Pairwise (· ≤ ·) :=
  (List.pairwise_lt_range k).map _ (fun _ _ hab => captionProgress_mono n (le_of_lt hab))

/-- The full progress list of a batch trace — the four fixed leading
values, a caption block over in-range indices, and a tail of values at
least 90 — is pairwise non-decreasing. -/
lemma pairwise_progress_list (n k : Nat) (hk : k ≤ n) (tail : List Nat)
    (htail : tail.Pairwise (· ≤ ·)) (hge : ∀ x ∈ tail, 90 ≤ x) :
    (0 :: 10 :: 30 :: 40 ::
      ((List.range k).map (fun i => captionProgress i n) ++ tail)).Pairwise (· ≤ ·) := by
  have hcap : ∀ x ∈ (List.range k).map (fun i => captionProgress i n),
      40 ≤ x ∧ x ≤ 90 := by
    intro x hx
    simp only [List.mem_map, List.mem_range] at hx
    obtain ⟨i, hi, rfl⟩ := hx
    exact ⟨captionProgress_ge i n, captionProgress_le (lt_of_lt_of_le hi hk)⟩
  have happ : ((List.range k).map (fun i => captionProgress i n) ++ tail).Pairwise (· ≤ ·) := by
    rw [List.pairwise_append]
    refine ⟨caption_block_pairwise n k, htail, ?_⟩
    intro x hx y hy
    exact le_trans (hcap x hx).2 (hge y hy)
  have hsplit : (0 :: 10 :: 30 :: 40 ::
      ((List.range k).map (fun i => captionProgress i n) ++ tail)) =
      [0, 10, 30, 40] ++ ((List.range k).map (fun i => captionProgress i n) ++ tail) := rfl
  rw [hsplit, List.pairwise_append]
  refine ⟨by decide, happ, ?_⟩
  intro x hx y hy
  have hx40 : x ≤ 40 := by
    simp only [List.mem_cons, List.not_mem_nil, or_false] at hx
    rcases hx with rfl | rfl | rfl | rfl <;> norm_num
  rcases List.mem_append.mp hy with hy | hy
  · exact le_trans hx40 (hcap y hy).1
  · exact le_trans hx40 (le_trans (by norm_num) (hge y hy))

/-- C3: over one batch SSE stream, status-event progress values are
non-decreasing in emission order, and the stream either ends with a status
at progress 100 immediately followed by the complete event, or ends earlier
with an error event; no trace contains both a complete and an error
event.  (Caption-task status events are emitted at task start, and p-limit
starts tasks in submission order; the error branch emits its event and
closes the stream in one continuation, so nothing follows an error.) -/
theorem c3_sse_progress_and_termination (env : BatchEnv) :
    List.Chain' (· ≤ ·) (statusProgresses (batchTrace env)) ∧
    ((∃ m pre, batchTrace env = pre ++ [SSEEvent.status m 100, SSEEvent.complete]) ∨
      (∃ m pre, batchTrace env = pre ++ [SSEEvent.error m])) ∧
    ¬ (SSEEvent.complete ∈ batchTrace env ∧ ∃ m, SSEEvent.error m ∈ batchTrace env) := by
  obtain ⟨p, o, n, c, st, msg⟩ := env
  cases p with
  | false =>
    refine ⟨?_, Or.inr ⟨msg, [], by simp [batchTrace]⟩, ?_⟩
    · simp [batchTrace, statusProgresses]
    · rintro ⟨hc, -⟩
      simp [batchTrace] at hc
  | true =>
    cases o with
    | false =>
      refine ⟨?_, Or.inr ⟨msg,
          [SSEEvent.status "Starting batch processing" 0,
            SSEEvent.status "Ordering slideshows with Gemini" 10],
          by simp [batchTrace]⟩, ?_⟩
      · have hsp : statusProgresses
            (batchTrace
              { parseOk := true, orderOk := false, slides := n,
                captionsOk := c, started := st, errMsg := msg }) = [0, 10] := by
          simp [batchTrace, statusProgresses]
        rw [hsp]
        norm_num [List.chain'_cons]
      · rintro ⟨hc, -⟩
        simp [batchTrace] at hc
    | true =>
      cases c with
      | true =>
        refine ⟨?_, Or.inl ⟨"Batch processing complete",
            [SSEEvent.status "Starting batch processing" 0,
              SSEEvent.status "Ordering slideshows with Gemini" 10,
              SSEEvent.status "Successfully ordered slideshows" 30,
              SSEEvent.status "Generating captions with Claude" 40] ++
            (List.range n).map (fun i => captionStatusEvent i n) ++
            [SSEEvent.status "Cleaning up temporary files" 95,
              SSEEvent.status "Saving generation to database" 95],
            by simp [batchTrace]⟩, ?_⟩
        · have hsp : statusProgresses
              (batchTrace
                { parseOk := true, orderOk := true, slides := n,
                  captionsOk := true, started := st, errMsg := msg }) =
              0 :: 10 :: 30 :: 40 ::
                ((List.range n).map (fun i => captionProgress i n) ++ [95, 95, 100]) := by
            simp [batchTrace, statusProgresses_append, statusProgresses_caption_map,
              statusProgresses]
          rw [hsp]
          exact (pairwise_progress_list n n le_rfl [95, 95, 100]
            (by decide) (by decide)).chain'
        · rintro ⟨-, m, he⟩
          simp [batchTrace, captionStatusEvent] at he
      | false =>
        refine ⟨?_, Or.inr ⟨msg,
            [SSEEvent.status "Starting batch processing" 0,
              SSEEvent.status "Ordering slideshows with Gemini" 10,
              SSEEvent.status "Successfully ordered slideshows" 30,
              SSEEvent.status "Generating captions with Claude" 40] ++
            (List.range (min st n)).map (fun i => captionStatusEvent i n),
            by simp [batchTrace]⟩, ?_⟩
        · have hsp : statusProgresses
              (batchTrace
                { parseOk := true, orderOk := true, slides := n,
                  captionsOk := false, started := st, errMsg := msg }) =
              0 :: 10 :: 30 :: 40 ::
                ((List.range (min st n)).map (fun i => captionProgress i n)) := by
            simp [batchTrace, statusProgresses_append, statusProgresses_caption_map,
              statusProgresses]
          rw [hsp]
          have hp := (pairwise_progress_list n (min st n) (Nat.min_le_right st n) []
            (by decide) (by simp)).chain'
          simpa using hp
        · rintro ⟨hc, -⟩
          simp [batchTrace, captionStatusEvent] at hc

end TTSlide
